import Mathlib

/-!
A shallow embedding of the `iou` crate (src/src/lib.rs): the `Iou` lazy
initialization cell.

Modelling conventions:

- The internal enum `IouState` (lib.rs lines 20-25) is embedded directly.
  The initializer closure of type `F: FnOnce(S) -> T` is modelled as a
  function `S → Except E T`, where `Except.error e` models the closure
  panicking with payload `e` and `Except.ok t` models normal return.
- A Rust panic raised by an `Iou` operation is modelled as an
  `Except.error` result.  The panics with messages "Iou: corrupted cell"
  and "init: corrupted cell" are the corrupted-cell error
  (`IouError.corruptedCell`); a panic propagated out of the
  user-supplied initializer closure is `IouError.initFailure e`.
- Methods taking `&self`/`&mut self` are modelled as state-passing
  functions returning the result, the state of the cell after the call
  (the state the caller would observe after catching any panic), and a
  `Nat` counting how many times the call invoked the initializer
  closure `f`.  `unwrap` consumes `self`, so it returns no state.
-/

/-- Outcomes of an `Iou` operation that panics.  `corruptedCell` is the
"corrupted cell" panic raised by the `Iou` code itself; `initFailure e`
is a panic with payload `e` propagating out of the user-supplied
initializer closure. -/
inductive IouError (E : Type) : Type where
  | corruptedCell : IouError E
  | initFailure : E → IouError E
deriving DecidableEq

/-- The internal state enum of `Iou` (lib.rs lines 20-25).  `PreInit
(some (s, f))` holds the seed and initializer; `PreInit none` is the
corrupted cell left behind when the initializer panicked during `init`
(the `Option` was `take`n but no value was stored); `Init t` holds the
computed value. -/
inductive IouState (S T E : Type) : Type where
  | PreInit : Option (S × (S → Except E T)) → IouState S T E
  | Init : T → IouState S T E

namespace Iou

variable {S T E : Type}

/-- `Iou::new` (lib.rs lines 31-33): stores the seed and the
initializer, unevaluated. -/
def new (init : S) (f : S → Except E T) : IouState S T E :=
  IouState.PreInit (some (init, f))

/-- `Iou::unwrap` (lib.rs lines 44-50): consumes the cell.  On
`PreInit(Some((s, f)))` it applies `f` to `s` and returns the result
directly (the second component counts that single initializer
invocation); on `Init(t)` it returns the stored value; otherwise it
panics with "Iou: corrupted cell". -/
def unwrap (st : IouState S T E) : Except (IouError E) T × Nat :=
  match st with
  | .PreInit (some (s, f)) =>
      (match f s with
       | .ok t => (.ok t, 1)
       | .error e => (.error (.initFailure e), 1))
  | .Init t => (.ok t, 0)
  | .PreInit none => (.error .corruptedCell, 0)

/-- `Iou::is_init` (lib.rs lines 66-76): panics with "Iou: corrupted
cell" on `PreInit(None)`, else reports whether the state is `Init`.
It only reads through a shared reference, so the state is unchanged in
every case, and the initializer is never invoked. -/
def is_init (st : IouState S T E) :
    Except (IouError E) Bool × IouState S T E × Nat :=
  match st with
  | .PreInit none => (.error .corruptedCell, .PreInit none, 0)
  | .PreInit (some p) => (.ok false, .PreInit (some p), 0)
  | .Init t => (.ok true, .Init t, 0)

/-- `Iou::init` (lib.rs lines 82-101): on `PreInit(Some((s, f)))` it
`take`s the pair (leaving `PreInit(None)`) and invokes `f s`; on
success it stores `Init(f(s))`, while a panic of `f` propagates and
leaves the cell as `PreInit(None)` — the corrupted cell.  On
`PreInit(None)` the `expect` panics with "init: corrupted cell",
leaving the state unchanged.  On `Init(_)` it is a no-op. -/
def init (st : IouState S T E) :
    Except (IouError E) Unit × IouState S T E × Nat :=
  match st with
  | .PreInit (some (s, f)) =>
      (match f s with
       | .ok t => (.ok (), .Init t, 1)
       | .error e => (.error (.initFailure e), .PreInit none, 1))
  | .PreInit none => (.error .corruptedCell, .PreInit none, 0)
  | .Init t => (.ok (), .Init t, 0)

/-- `Iou::get` (lib.rs lines 108-120): matches the current state; on
`Init(t)` it returns (a shared reference to) `t`, and on every other
state it panics with "init: corrupted cell".  It does not call `init`
and never invokes the initializer, and it never writes the state. -/
def get (st : IouState S T E) :
    Except (IouError E) T × IouState S T E × Nat :=
  match st with
  | .Init t => (.ok t, .Init t, 0)
  | .PreInit p => (.error .corruptedCell, .PreInit p, 0)

/-- `Iou::get_mut` (lib.rs lines 128-140): matches the current state;
on `Init(t)` it returns (a mutable reference to) `t`, and on every
other state it panics with "init: corrupted cell".  Like `get` it does
not call `init` and never invokes the initializer. -/
def get_mut (st : IouState S T E) :
    Except (IouError E) T × IouState S T E × Nat :=
  match st with
  | .Init t => (.ok t, .Init t, 0)
  | .PreInit p => (.error .corruptedCell, .PreInit p, 0)

end Iou

/-- The non-consuming operations of the public API, used to quantify
over arbitrary call sequences on one cell.  `unwrap` consumes the cell
and so can only appear as the final operation of a sequence. -/
inductive Op : Type where
  | opIsInit : Op
  | opInit : Op
  | opGet : Op
  | opGetMut : Op
deriving DecidableEq

namespace Iou

variable {S T E : Type}

/-- Runs one non-consuming operation, keeping the resulting state and
the number of initializer invocations the operation performed. -/
def applyOp (op : Op) (st : IouState S T E) : IouState S T E × Nat :=
  match op with
  | .opIsInit => (is_init st).2
  | .opInit => (Iou.init st).2
  | .opGet => (get st).2
  | .opGetMut => (get_mut st).2

/-- Runs a sequence of non-consuming operations on a cell, returning
the final state and the total number of initializer invocations. -/
def runOps : List Op → IouState S T E → IouState S T E × Nat
  | [], st => (st, 0)
  | op :: ops, st =>
      let r := applyOp op st
      let rest := runOps ops r.1
      (rest.1, r.2 + rest.2)

/-- Weight 1 on states still holding the seed and initializer, 0
elsewhere: an upper bound for how many initializer invocations remain
possible. -/
def pendingWeight (st : IouState S T E) : Nat :=
  match st with
  | .PreInit (some _) => 1
  | .PreInit none => 0
  | .Init _ => 0

/-- Calls `Iou::init` a given number of times in sequence, keeping the
resulting state. -/
def iterInit : Nat → IouState S T E → IouState S T E
  | 0, st => st
  | n + 1, st => iterInit n (Iou.init st).2.1

/-- Iterating `init` on an already initialized cell never changes it. -/
lemma iterInit_Init (n : Nat) (t : T) :
    iterInit n (IouState.Init t : IouState S T E) = IouState.Init t := by
  induction n with
  | zero => rfl
  | succ n ih => simpa [iterInit, Iou.init] using ih

/-- A single non-consuming operation invokes the initializer at most
as many times as the pending weight it consumes. -/
lemma applyOp_count_add_weight (op : Op) (st : IouState S T E) :
    (applyOp op st).2 + pendingWeight (applyOp op st).1 ≤ pendingWeight st := by
  rcases st with p | t
  · rcases p with _ | ⟨s, f⟩
    · cases op <;>
        simp [applyOp, is_init, Iou.init, get, get_mut, pendingWeight]
    · cases op
      · simp [applyOp, is_init, pendingWeight]
      · cases h : f s <;> simp [applyOp, Iou.init, h, pendingWeight]
      · simp [applyOp, get, pendingWeight]
      · simp [applyOp, get_mut, pendingWeight]
  · cases op <;>
      simp [applyOp, is_init, Iou.init, get, get_mut, pendingWeight]

/-- A sequence of non-consuming operations invokes the initializer at
most as many times as the pending weight it consumes. -/
lemma runOps_count_add_weight (ops : List Op) (st : IouState S T E) :
    (runOps ops st).2 + pendingWeight (runOps ops st).1 ≤ pendingWeight st := by
  induction ops generalizing st with
  | nil => simp [runOps]
  | cons op ops ih =>
      have h1 := applyOp_count_add_weight op st
      have h2 := ih (applyOp op st).1
      simp only [runOps]
      omega

/-- `unwrap` invokes the initializer at most as many times as the
pending weight of its argument. -/
lemma unwrap_count_le_weight (st : IouState S T E) :
    (unwrap st).2 ≤ pendingWeight st := by
  cases st with
  | PreInit p =>
      cases p with
      | none => simp [unwrap, pendingWeight]
      | some q =>
          obtain ⟨s, f⟩ := q
          cases h : f s <;> simp [unwrap, h, pendingWeight]
  | Init t => simp [unwrap, pendingWeight]

end Iou

/-- Claim C1, code divergence: on a freshly constructed pending cell
whose initializer always succeeds, `Iou::get` does not force
initialization and does not return the value; it raises the
corrupted-cell error, leaving the state unchanged and the initializer
uninvoked (third component 0), contrary to its own doc comment
("Initialize the Iou if not yet initialized, then return a reference
to the initialized value"). -/
theorem c1_get_fails_on_pending :
    Iou.get (Iou.new 5 (fun n => (Except.ok (n + 1) : Except Nat Nat))) =
      (Except.error IouError.corruptedCell,
        IouState.PreInit (some (5, fun n => Except.ok (n + 1))), 0) := rfl

/-- Claim C2, code divergence: on a freshly constructed pending cell
whose initializer always succeeds, `Iou::get_mut` does not force
initialization and does not return the value; it raises the
corrupted-cell error, leaving the state unchanged and the initializer
uninvoked, contrary to its own doc comment. -/
theorem c2_get_mut_fails_on_pending :
    Iou.get_mut (Iou.new 7 (fun n => (Except.ok (2 * n) : Except Nat Nat))) =
      (Except.error IouError.corruptedCell,
        IouState.PreInit (some (7, fun n => Except.ok (2 * n))), 0) := rfl

/-- Claim C3, code divergence: `Iou::get` raises the corrupted-cell
error on a cell whose initializer has never failed — indeed has never
even been invoked: running the one-operation sequence consisting of
that very `get` call from construction performs zero initializer
invocations, yet the call fails with the corrupted-cell error. -/
theorem c3_corrupted_error_without_prior_failure :
    (Iou.runOps [Op.opGet]
        (Iou.new 3 (fun n => (Except.ok (n * 2) : Except Nat Nat)))).2 = 0 ∧
    (Iou.get (Iou.new 3 (fun n => (Except.ok (n * 2) : Except Nat Nat)))).1 =
      Except.error IouError.corruptedCell := ⟨rfl, rfl⟩

/-- Claim C4: if the initializer fails during the first force, the cell
is left as the corrupted state `PreInit none`, and every subsequent
operation — `is_init`, `init`, `get`, `get_mut` and `unwrap` — fails
with the corrupted-cell error; moreover every non-consuming operation
leaves the corrupted state in place, so the failures persist across
arbitrary sequences of subsequent operations. -/
theorem c4_corruption_sticky {S T E : Type} (s : S) (f : S → Except E T)
    (e : E) (h : f s = Except.error e) :
    (Iou.init (Iou.new s f)).2.1 = IouState.PreInit none ∧
    (Iou.is_init (IouState.PreInit none : IouState S T E)).1 =
      Except.error IouError.corruptedCell ∧
    (Iou.init (IouState.PreInit none : IouState S T E)).1 =
      Except.error IouError.corruptedCell ∧
    (Iou.get (IouState.PreInit none : IouState S T E)).1 =
      Except.error IouError.corruptedCell ∧
    (Iou.get_mut (IouState.PreInit none : IouState S T E)).1 =
      Except.error IouError.corruptedCell ∧
    (Iou.unwrap (IouState.PreInit none : IouState S T E)).1 =
      Except.error IouError.corruptedCell ∧
    ∀ op : Op, Iou.applyOp op (IouState.PreInit none : IouState S T E) =
      (IouState.PreInit none, 0) := by
  refine ⟨by simp [Iou.new, Iou.init, h], rfl, rfl, rfl, rfl, rfl, ?_⟩
  intro op
  cases op <;> rfl

/-- Concrete instance of c4_corruption_sticky at a failing initializer. -/
theorem c4_corruption_sticky_witness :
    (fun n => (Except.error n : Except Nat Nat)) 5 = Except.error 5 ∧
    (Iou.init (Iou.new 5 (fun n => (Except.error n : Except Nat Nat)))).2.1 =
      IouState.PreInit none :=
  ⟨rfl, (c4_corruption_sticky 5 (fun n => Except.error n) 5 rfl).1⟩

/-- Claim C5: over any sequence of non-consuming operations starting
from construction, followed by a final consuming `unwrap`, the
initializer is invoked at most once in total. -/
theorem c5_initializer_invoked_at_most_once {S T E : Type}
    (ops : List Op) (s : S) (f : S → Except E T) :
    (Iou.runOps ops (Iou.new s f)).2 +
      (Iou.unwrap (Iou.runOps ops (Iou.new s f)).1).2 ≤ 1 := by
  have h1 := Iou.runOps_count_add_weight ops (Iou.new s f)
  have h2 := Iou.unwrap_count_le_weight (Iou.runOps ops (Iou.new s f)).1
  have h3 : Iou.pendingWeight (Iou.new s f) = 1 := rfl
  omega

/-- Claim C6: `unwrap` destroys the cell and returns the owned value:
on a pending cell it runs the initializer on the seed exactly once and
returns its result directly (propagating a failure unchanged), with no
state stored anywhere; on an initialized cell it returns the stored
value without invoking the initializer; on a corrupted cell it fails
with the corrupted-cell error. -/
theorem c6_unwrap_spec {S T E : Type} (s : S) (f : S → Except E T) (t : T) :
    Iou.unwrap (IouState.PreInit (some (s, f))) =
      ((match f s with
        | Except.ok v => Except.ok v
        | Except.error e => Except.error (IouError.initFailure e)), 1) ∧
    Iou.unwrap (IouState.Init t : IouState S T E) = (Except.ok t, 0) ∧
    Iou.unwrap (IouState.PreInit none : IouState S T E) =
      (Except.error IouError.corruptedCell, 0) := by
  refine ⟨?_, rfl, rfl⟩
  cases h : f s <;> simp [Iou.unwrap, h]

/-- Claim C7: when the initializer fails during the first-call forcing
path, the failure propagates to the immediate caller unchanged (as
`initFailure e`, not as the corrupted-cell error), while `init` leaves
the cell corrupted for future use; `get` and `get_mut` have no forcing
path at all — they can never surface an initializer failure on any
state. -/
theorem c7_initializer_failure_propagates {S T E : Type} (s : S)
    (f : S → Except E T) (e : E) (h : f s = Except.error e) :
    Iou.init (Iou.new s f) =
      (Except.error (IouError.initFailure e), IouState.PreInit none, 1) ∧
    Iou.unwrap (Iou.new s f) = (Except.error (IouError.initFailure e), 1) ∧
    ∀ (st : IouState S T E) (e' : E),
      (Iou.get st).1 ≠ Except.error (IouError.initFailure e') ∧
      (Iou.get_mut st).1 ≠ Except.error (IouError.initFailure e') := by
  refine ⟨by simp [Iou.new, Iou.init, h], by simp [Iou.new, Iou.unwrap, h], ?_⟩
  intro st e'
  rcases st with p | t <;> simp [Iou.get, Iou.get_mut]

/-- Concrete instance of c7_initializer_failure_propagates. -/
theorem c7_initializer_failure_propagates_witness :
    (fun _ : Nat => (Except.error 7 : Except Nat Nat)) 0 = Except.error 7 ∧
    Iou.init (Iou.new 0 (fun _ : Nat => (Except.error 7 : Except Nat Nat))) =
      (Except.error (IouError.initFailure 7), IouState.PreInit none, 1) :=
  ⟨rfl, (c7_initializer_failure_propagates 0 _ 7 rfl).1⟩

/-- Claim C8: `init` is idempotent on a successfully initializing cell:
N calls (N at least 1) from construction reach the same state as one
call, namely the initialized state holding the computed value, which
`get` then observes; and `init` on an already initialized cell is a
no-op that succeeds, changes nothing and does not invoke the
initializer. -/
theorem c8_init_idempotent {S T E : Type} (s : S) (f : S → Except E T)
    (t : T) (n : Nat) (hf : f s = Except.ok t) (hn : 1 ≤ n) :
    Iou.iterInit n (Iou.new s f) = Iou.iterInit 1 (Iou.new s f) ∧
    Iou.iterInit 1 (Iou.new s f) = IouState.Init t ∧
    Iou.init (IouState.Init t : IouState S T E) =
      (Except.ok (), IouState.Init t, 0) ∧
    (Iou.get (Iou.iterInit n (Iou.new s f))).1 = Except.ok t := by
  obtain ⟨m, rfl⟩ : ∃ m, n = m + 1 := ⟨n - 1, by omega⟩
  have h1 : (Iou.init (Iou.new s f)).2.1 = IouState.Init t := by
    simp [Iou.new, Iou.init, hf]
  have h2 : Iou.iterInit (m + 1) (Iou.new s f) = IouState.Init t := by
    simp only [Iou.iterInit, h1, Iou.iterInit_Init]
  have h3 : Iou.iterInit 1 (Iou.new s f) = IouState.Init t := by
    simp only [Iou.iterInit, h1]
  exact ⟨h2.trans h3.symm, h3, rfl, by simp [h2, Iou.get]⟩

/-- Concrete instance of c8_init_idempotent at three forces. -/
theorem c8_init_idempotent_witness :
    ((fun n : Nat => (Except.ok (n + 1) : Except Nat Nat)) 0 = Except.ok 1 ∧
      1 ≤ 3) ∧
    Iou.iterInit 3 (Iou.new 0 (fun n : Nat => (Except.ok (n + 1) : Except Nat Nat))) =
      IouState.Init 1 := by
  have h := c8_init_idempotent 0
    (fun n : Nat => (Except.ok (n + 1) : Except Nat Nat)) 1 3 rfl (by omega)
  exact ⟨⟨rfl, by omega⟩, h.1.trans h.2.1⟩

/-- Claim C9: construction stores the seed and the initializer
untouched and unevaluated, always succeeds, and a query on the fresh
cell reports false without error, changes nothing and performs zero
initializer invocations. -/
theorem c9_new_is_deferred {S T E : Type} (s : S) (f : S → Except E T) :
    Iou.new s f = IouState.PreInit (some (s, f)) ∧
    Iou.is_init (Iou.new s f) =
      (Except.ok false, IouState.PreInit (some (s, f)), 0) := ⟨rfl, rfl⟩

/-- Claim C10: every non-consuming operation that fails with the
corrupted-cell error — `is_init`, `init`, `get`, `get_mut` — leaves
the state of the cell exactly unchanged. -/
theorem c10_corrupted_failure_preserves_state {S T E : Type}
    (st : IouState S T E) :
    ((Iou.is_init st).1 = Except.error IouError.corruptedCell →
      (Iou.is_init st).2.1 = st) ∧
    ((Iou.init st).1 = Except.error IouError.corruptedCell →
      (Iou.init st).2.1 = st) ∧
    ((Iou.get st).1 = Except.error IouError.corruptedCell →
      (Iou.get st).2.1 = st) ∧
    ((Iou.get_mut st).1 = Except.error IouError.corruptedCell →
      (Iou.get_mut st).2.1 = st) := by
  rcases st with p | t
  · rcases p with _ | ⟨s, f⟩
    · exact ⟨fun _ => rfl, fun _ => rfl, fun _ => rfl, fun _ => rfl⟩
    · refine ⟨fun h => by simp [Iou.is_init] at h, fun h => ?_,
        fun _ => rfl, fun _ => rfl⟩
      cases hf : f s <;> simp [Iou.init, hf] at h
  · exact ⟨fun _ => rfl, fun _ => rfl, fun _ => rfl, fun _ => rfl⟩

/-- Concrete instance of c10_corrupted_failure_preserves_state at the
corrupted state. -/
theorem c10_corrupted_failure_preserves_state_witness :
    (Iou.init (IouState.PreInit none : IouState Nat Nat Nat)).1 =
      Except.error IouError.corruptedCell ∧
    (Iou.init (IouState.PreInit none : IouState Nat Nat Nat)).2.1 =
      IouState.PreInit none :=
  ⟨rfl,
    (c10_corrupted_failure_preserves_state
      (IouState.PreInit none : IouState Nat Nat Nat)).2.1 rfl⟩
